import Mathlib

/-!
Verification of the metrics-aggregation core of the serverless-dashboard
frontend (`CC_project/frontend/app.py`).

The embedding models the two pieces of genuine computation:

* `calculate_function_stats` (app.py lines 348-396): turns a list of
  execution records (Python dicts) into a summary-statistics dict.
* the per-metric percentage deltas of `show_comparison_page`
  (app.py lines 739-741): `init_diff`, `exec_diff`, `total_diff`.

Python dict fields are modelled as `Option JVal` where `JVal` is a small
dynamic-value type (null, bool, number, string); Python floats are modelled
as rationals.  Python truthiness (`if v`, `e.get(k, d)` used as a condition)
is `JVal.truthy`.  `sum` over a list that contains a value that is neither a
number nor a bool raises `TypeError` in Python; the embedding therefore
returns `Except PyError` and the numeric coercion (`JVal.toNum?`, with
`True`/`False` coerced to 1/0 exactly as Python's `int`-subclassed bools)
drives the error case.
-/

namespace FrontendApp

/-- Dynamic JSON-like values appearing as fields of an execution record. -/
inductive JVal where
  | null : JVal
  | bool : Bool → JVal
  | num : ℚ → JVal
  | str : String → JVal
deriving DecidableEq, Repr

/-- Python truthiness of a dynamic value: `None` and `False` are falsy,
numbers are truthy iff nonzero, strings iff nonempty. -/
def JVal.truthy : JVal → Bool
  | .null => false
  | .bool b => b
  | .num q => q != 0
  | .str s => s != ""

/-- Numeric coercion used by Python's `sum`/`min`/`max` arithmetic: numbers
are themselves, bools coerce to 0/1 (Python's `bool` is an `int` subclass),
`None` and strings do not coerce (arithmetic on them raises `TypeError`). -/
def JVal.toNum? : JVal → Option ℚ
  | .num q => some q
  | .bool b => some (if b then 1 else 0)
  | _ => none

/-- One execution record, a Python dict.  Each field is `none` when the key
is absent from the dict and `some v` when present with dynamic value `v`.
Only the keys read by `calculate_function_stats` are modelled. -/
structure Execution where
  success : Option JVal := none
  runtime : Option JVal := none
  cold_start : Option JVal := none
  initialization_time_ms : Option JVal := none
  execution_time_ms : Option JVal := none
  total_time_ms : Option JVal := none
deriving DecidableEq, Repr

/-- The dict returned by `calculate_function_stats`, with its nested
`runtime_distribution` and `warm_vs_cold` dicts flattened into fields. -/
structure Stats where
  total_executions : ℕ
  success_rate : ℚ
  avg_initialization_time : ℚ
  min_initialization_time : ℚ
  max_initialization_time : ℚ
  avg_execution_time : ℚ
  min_execution_time : ℚ
  max_execution_time : ℚ
  avg_total_time : ℚ
  min_total_time : ℚ
  max_total_time : ℚ
  runtime_docker : ℕ
  runtime_gvisor : ℕ
  warm : ℕ
  cold : ℕ
deriving DecidableEq, Repr

/-- A Python runtime error (the `TypeError` raised by `sum` on a list that
contains a non-numeric element). -/
inductive PyError where
  | typeError : PyError
deriving DecidableEq, Repr

/-- The all-zero dict returned for an empty input (app.py lines 350-365). -/
def defaultStats : Stats where
  total_executions := 0
  success_rate := 0
  avg_initialization_time := 0
  min_initialization_time := 0
  max_initialization_time := 0
  avg_execution_time := 0
  min_execution_time := 0
  max_execution_time := 0
  avg_total_time := 0
  min_total_time := 0
  max_total_time := 0
  runtime_docker := 0
  runtime_gvisor := 0
  warm := 0
  cold := 0

/-- Python's `min` over a nonempty list (fold of binary `min`); the `[]`
case is never reached by the source, which guards with `if times else 0`. -/
def listMin : List ℚ → ℚ
  | [] => 0
  | x :: xs => xs.foldl min x

/-- Python's `max` over a nonempty list (fold of binary `max`). -/
def listMax : List ℚ → ℚ
  | [] => 0
  | x :: xs => xs.foldl max x

/-- `sum(times)/len(times) if times else 0` (app.py lines 379/382/385). -/
def listAvg (times : List ℚ) : ℚ :=
  if times.isEmpty then 0 else times.sum / (times.length : ℚ)

/-- Evaluate a timing list as numbers, as Python's `sum` does: succeeds with
the coerced values when every element is numeric (number or bool), and
raises `TypeError` at the first element that is not. -/
def numsOf : List JVal → Except PyError (List ℚ)
  | [] => .ok []
  | v :: vs =>
    match v.toNum?, numsOf vs with
    | some q, .ok qs => .ok (q :: qs)
    | _, _ => .error .typeError

/-- `sum(1 for e in executions if e.get("success", False))` (app.py 368). -/
def successfulCount (executions : List Execution) : ℕ :=
  executions.countP fun e => (e.success.getD (JVal.bool false)).truthy

/-- `[e["execution_time_ms"] for e in executions if "execution_time_ms" in e]`
(app.py 372), and its two siblings for the other timing keys. -/
def exec_times (executions : List Execution) : List JVal :=
  executions.filterMap fun e => e.execution_time_ms

/-- `[e["initialization_time_ms"] for e in executions if ... in e]` (app.py 373). -/
def init_times (executions : List Execution) : List JVal :=
  executions.filterMap fun e => e.initialization_time_ms

/-- `[e["total_time_ms"] for e in executions if "total_time_ms" in e]` (app.py 374). -/
def total_times (executions : List Execution) : List JVal :=
  executions.filterMap fun e => e.total_time_ms

/-- `calculate_function_stats` (app.py lines 348-396).  The empty input
returns the all-zero dict; otherwise the success rate, the three per-field
timing lists, the runtime tallies (`e.get("runtime") == "docker"` /
`"gvisor"`) and the warm/cold tallies (`not e.get("cold_start", True)` /
`e.get("cold_start", True)`) are computed exactly as in the source.  The
result is an error exactly when Python's `sum` over one of the timing lists
raises `TypeError`, i.e. when some present timing value is non-numeric. -/
def calculate_function_stats (executions : List Execution) :
    Except PyError Stats :=
  if executions.isEmpty then
    .ok defaultStats
  else
    match numsOf (init_times executions), numsOf (exec_times executions),
        numsOf (total_times executions) with
    | .ok inits, .ok execs, .ok totals =>
      .ok
        { total_executions := executions.length
          success_rate :=
            ((successfulCount executions : ℚ) / (executions.length : ℚ)) * 100
          avg_initialization_time := listAvg inits
          min_initialization_time := if inits.isEmpty then 0 else listMin inits
          max_initialization_time := if inits.isEmpty then 0 else listMax inits
          avg_execution_time := listAvg execs
          min_execution_time := if execs.isEmpty then 0 else listMin execs
          max_execution_time := if execs.isEmpty then 0 else listMax execs
          avg_total_time := listAvg totals
          min_total_time := if totals.isEmpty then 0 else listMin totals
          max_total_time := if totals.isEmpty then 0 else listMax totals
          runtime_docker :=
            executions.countP fun e => e.runtime == some (JVal.str "docker")
          runtime_gvisor :=
            executions.countP fun e => e.runtime == some (JVal.str "gvisor")
          warm :=
            executions.countP fun e => !(e.cold_start.getD (JVal.bool true)).truthy
          cold :=
            executions.countP fun e => (e.cold_start.getD (JVal.bool true)).truthy }
    | _, _, _ => .error .typeError

/-- Per-runtime benchmark averages as read from the comparison payload
(`docker_stats` / `gvisor_stats` in `show_comparison_page`). -/
structure RuntimeStats where
  avg_init_time_ms : ℚ
  avg_exec_time_ms : ℚ
  avg_total_time_ms : ℚ
deriving DecidableEq, Repr

/-- `init_diff` (app.py line 739): percentage delta of the gVisor average
initialization time relative to the Docker baseline, guarded by the Python
truthiness of the baseline (`... if docker_stats[...] else 0`). -/
def init_diff (docker_stats gvisor_stats : RuntimeStats) : ℚ :=
  if docker_stats.avg_init_time_ms ≠ 0 then
    (gvisor_stats.avg_init_time_ms - docker_stats.avg_init_time_ms) /
      docker_stats.avg_init_time_ms * 100
  else 0

/-- `exec_diff` (app.py line 740). -/
def exec_diff (docker_stats gvisor_stats : RuntimeStats) : ℚ :=
  if docker_stats.avg_exec_time_ms ≠ 0 then
    (gvisor_stats.avg_exec_time_ms - docker_stats.avg_exec_time_ms) /
      docker_stats.avg_exec_time_ms * 100
  else 0

/-- `total_diff` (app.py line 741). -/
def total_diff (docker_stats gvisor_stats : RuntimeStats) : ℚ :=
  if docker_stats.avg_total_time_ms ≠ 0 then
    (gvisor_stats.avg_total_time_ms - docker_stats.avg_total_time_ms) /
      docker_stats.avg_total_time_ms * 100
  else 0

/-- The sub-sequence of numeric values actually carried by a given timing
field across a record list (spec wording for the per-field timing stats). -/
def carriedNums (field : Execution → Option JVal) (executions : List Execution) :
    List ℚ :=
  executions.filterMap fun e => (field e).bind JVal.toNum?

/-- A dict field is numeric-or-absent: absent, or present with a value that
coerces to a number (number or bool). -/
def numericField (o : Option JVal) : Bool :=
  o.all fun v => v.toNum?.isSome

section Helpers

lemma countP_not_add (p : α → Bool) (l : List α) :
    l.countP p + l.countP (fun a => !(p a)) = l.length := by
  induction l with
  | nil => rfl
  | cons a t ih => by_cases h : p a <;> simp [List.countP_cons, h] <;> omega

lemma countP_disjoint_add (p q : α → Bool) (l : List α)
    (h : ∀ x ∈ l, ¬(p x = true ∧ q x = true)) :
    l.countP p + l.countP q = l.countP (fun x => p x || q x) := by
  induction l with
  | nil => rfl
  | cons a t ih =>
    have ha := h a (List.mem_cons_self a t)
    have ihh := ih fun x hx => h x (List.mem_cons_of_mem a hx)
    by_cases hp : p a
    · by_cases hq : q a
      · exact absurd ⟨hp, hq⟩ ha
      · simp [List.countP_cons, hp, hq]; omega
    · by_cases hq : q a <;> simp [List.countP_cons, hp, hq] <;> omega

lemma numsOf_ok (vs : List JVal) (qs : List ℚ) (h : numsOf vs = Except.ok qs) :
    qs = vs.filterMap JVal.toNum? := by
  induction vs generalizing qs with
  | nil =>
    simp only [numsOf, Except.ok.injEq] at h
    simp [← h]
  | cons v t ih =>
    cases hv : v.toNum? <;> cases hr : numsOf t
    case some.ok q qs' =>
      simp only [numsOf, hv, hr, Except.ok.injEq] at h
      simp [← h, List.filterMap_cons, hv, ih qs' hr]
    all_goals simp [numsOf, hv, hr] at h

lemma numsOf_exists (vs : List JVal) (h : ∀ v ∈ vs, v.toNum?.isSome) :
    ∃ qs, numsOf vs = Except.ok qs := by
  induction vs with
  | nil => exact ⟨[], rfl⟩
  | cons v t ih =>
    obtain ⟨qs, hqs⟩ := ih fun x hx => h x (List.mem_cons_of_mem v hx)
    have hv := h v (List.mem_cons_self v t)
    cases hv' : v.toNum? with
    | none => rw [hv'] at hv; simp at hv
    | some q => exact ⟨q :: qs, by simp [numsOf, hv', hqs]⟩

/-- Inversion of a successful run of `calculate_function_stats` on a
nonempty input: the three timing lists all coerced, and the result is the
dict built from the coerced lists. -/
lemma calc_ok_inv (l : List Execution) (s : Stats)
    (hl : l ≠ []) (h : calculate_function_stats l = Except.ok s) :
    ∃ inits execs totals,
      numsOf (init_times l) = Except.ok inits ∧
      numsOf (exec_times l) = Except.ok execs ∧
      numsOf (total_times l) = Except.ok totals ∧
      s = { total_executions := l.length
            success_rate :=
              ((successfulCount l : ℚ) / (l.length : ℚ)) * 100
            avg_initialization_time := listAvg inits
            min_initialization_time := if inits.isEmpty then 0 else listMin inits
            max_initialization_time := if inits.isEmpty then 0 else listMax inits
            avg_execution_time := listAvg execs
            min_execution_time := if execs.isEmpty then 0 else listMin execs
            max_execution_time := if execs.isEmpty then 0 else listMax execs
            avg_total_time := listAvg totals
            min_total_time := if totals.isEmpty then 0 else listMin totals
            max_total_time := if totals.isEmpty then 0 else listMax totals
            runtime_docker :=
              l.countP fun e => e.runtime == some (JVal.str "docker")
            runtime_gvisor :=
              l.countP fun e => e.runtime == some (JVal.str "gvisor")
            warm :=
              l.countP fun e => !(e.cold_start.getD (JVal.bool true)).truthy
            cold :=
              l.countP fun e => (e.cold_start.getD (JVal.bool true)).truthy } := by
  unfold calculate_function_stats at h
  rw [if_neg (by simpa using hl)] at h
  cases hi : numsOf (init_times l) <;>
    cases he : numsOf (exec_times l) <;>
    cases ht : numsOf (total_times l) <;>
    rw [hi, he, ht] at h
  case ok.ok.ok inits execs totals =>
    simp only [Except.ok.injEq] at h
    exact ⟨inits, execs, totals, rfl, rfl, rfl, h.symm⟩
  all_goals simp at h

/-- Inversion of `calculate_function_stats` on the empty input. -/
lemma calc_nil_inv (s : Stats) (h : calculate_function_stats [] = Except.ok s) :
    s = defaultStats := by
  simpa [calculate_function_stats] using h.symm

lemma listMin_if_empty (qs : List ℚ) :
    (if qs.isEmpty then (0 : ℚ) else listMin qs) = listMin qs := by
  cases qs <;> simp [listMin]

lemma listMax_if_empty (qs : List ℚ) :
    (if qs.isEmpty then (0 : ℚ) else listMax qs) = listMax qs := by
  cases qs <;> simp [listMax]

end Helpers

section Fixtures

/-- The two-record scenario of spec section 8: one successful container
(docker) warm execution taking 10 ms and one failed sandboxed (gvisor) cold
execution taking 50 ms, neither carrying initialization or total time. -/
def benchRecords : List Execution :=
  [ { success := some (JVal.bool true), runtime := some (JVal.str "docker"),
      cold_start := some (JVal.bool false),
      execution_time_ms := some (JVal.num 10) },
    { success := some (JVal.bool false), runtime := some (JVal.str "gvisor"),
      cold_start := some (JVal.bool true),
      execution_time_ms := some (JVal.num 50) } ]

/-- The summary dict produced for benchRecords. -/
def benchStats : Stats where
  total_executions := 2
  success_rate := 50
  avg_initialization_time := 0
  min_initialization_time := 0
  max_initialization_time := 0
  avg_execution_time := 30
  min_execution_time := 10
  max_execution_time := 50
  avg_total_time := 0
  min_total_time := 0
  max_total_time := 0
  runtime_docker := 1
  runtime_gvisor := 1
  warm := 1
  cold := 1

lemma bench_ok : calculate_function_stats benchRecords = Except.ok benchStats := by
  simp [calculate_function_stats, benchRecords, benchStats, numsOf, init_times,
    exec_times, total_times, successfulCount, listAvg, listMin, listMax,
    JVal.toNum?, JVal.truthy, List.countP_cons]
  norm_num

/-- A record with a present success flag next to one missing it. -/
def succRecords : List Execution :=
  [ { success := some (JVal.bool true) }, {} ]

/-- The summary dict produced for succRecords. -/
def succStats : Stats where
  total_executions := 2
  success_rate := 50
  avg_initialization_time := 0
  min_initialization_time := 0
  max_initialization_time := 0
  avg_execution_time := 0
  min_execution_time := 0
  max_execution_time := 0
  avg_total_time := 0
  min_total_time := 0
  max_total_time := 0
  runtime_docker := 0
  runtime_gvisor := 0
  warm := 0
  cold := 2

lemma succ_ok : calculate_function_stats succRecords = Except.ok succStats := by
  simp [calculate_function_stats, succRecords, succStats, numsOf, init_times,
    exec_times, total_times, successfulCount, listAvg, JVal.truthy,
    List.countP_cons]
  norm_num

/-- A single record carrying only an execution time of 7 ms. -/
def timedRecords : List Execution :=
  [ { execution_time_ms := some (JVal.num 7) } ]

/-- The summary dict produced for timedRecords. -/
def timedStats : Stats where
  total_executions := 1
  success_rate := 0
  avg_initialization_time := 0
  min_initialization_time := 0
  max_initialization_time := 0
  avg_execution_time := 7
  min_execution_time := 7
  max_execution_time := 7
  avg_total_time := 0
  min_total_time := 0
  max_total_time := 0
  runtime_docker := 0
  runtime_gvisor := 0
  warm := 0
  cold := 1

lemma timed_ok : calculate_function_stats timedRecords = Except.ok timedStats := by
  simp [calculate_function_stats, timedRecords, timedStats, numsOf, init_times,
    exec_times, total_times, successfulCount, listAvg, listMin, listMax,
    JVal.toNum?, JVal.truthy, List.countP_cons]

end Fixtures

/-- C1: on the two-record input of spec section 8 (one successful
container/docker warm record with execution time 10 and one failed
sandboxed/gvisor cold record with execution time 50, neither carrying
initialization or total time), calculate_function_stats returns
totalExecutions 2, successRate 50, one docker (container) and one gvisor
(sandboxed) execution, one warm and one cold start, and execution-time
avg 30 / min 10 / max 50. -/
theorem c1_concrete_scenario :
    calculate_function_stats
      [ { success := some (JVal.bool true), runtime := some (JVal.str "docker"),
          cold_start := some (JVal.bool false),
          execution_time_ms := some (JVal.num 10) },
        { success := some (JVal.bool false), runtime := some (JVal.str "gvisor"),
          cold_start := some (JVal.bool true),
          execution_time_ms := some (JVal.num 50) } ] =
    Except.ok
      { total_executions := 2, success_rate := 50,
        avg_initialization_time := 0, min_initialization_time := 0,
        max_initialization_time := 0,
        avg_execution_time := 30, min_execution_time := 10,
        max_execution_time := 50,
        avg_total_time := 0, min_total_time := 0, max_total_time := 0,
        runtime_docker := 1, runtime_gvisor := 1, warm := 1, cold := 1 } := by
  simp [calculate_function_stats, numsOf, init_times, exec_times, total_times,
    successfulCount, listAvg, listMin, listMax, JVal.toNum?, JVal.truthy,
    List.countP_cons]
  norm_num

/-- C2 counterexample: the claim says a record whose cold_start is present
as null counts as cold, but the source counts by Python truthiness
(not e.get applied as a condition), and None is falsy, so such a record is
counted as warm: on the one-record input with cold_start null the result
has warm 1 and cold 0, not cold 1. -/
theorem c2_null_cold_start_counted_warm :
    calculate_function_stats [ { cold_start := some JVal.null } ] =
    Except.ok
      { total_executions := 1, success_rate := 0,
        avg_initialization_time := 0, min_initialization_time := 0,
        max_initialization_time := 0,
        avg_execution_time := 0, min_execution_time := 0,
        max_execution_time := 0,
        avg_total_time := 0, min_total_time := 0, max_total_time := 0,
        runtime_docker := 0, runtime_gvisor := 0, warm := 1, cold := 0 } := by
  simp [calculate_function_stats, numsOf, init_times, exec_times, total_times,
    successfulCount, listAvg, JVal.truthy, List.countP_cons]

/-- C2 (amended): a record counts as warm exactly when its cold_start field
is present with a falsy value (false, null, 0 or the empty string), and as
cold exactly when cold_start is missing or present with a truthy value; in
particular a record missing cold_start increments cold and not warm. -/
theorem c2_warm_cold_classification (l : List Execution) (s : Stats)
    (h : calculate_function_stats l = Except.ok s) :
    s.warm = l.countP (fun e => e.cold_start.elim false (fun v => !v.truthy)) ∧
    s.cold = l.countP (fun e => e.cold_start.elim true JVal.truthy) := by
  rcases eq_or_ne l [] with rfl | hl
  · rw [calc_nil_inv s h]
    simp [defaultStats]
  · obtain ⟨is, es, ts, hi, he, ht, rfl⟩ := calc_ok_inv l s hl h
    constructor
    · apply List.countP_congr
      intro e _
      cases hc : e.cold_start <;> simp [hc, JVal.truthy]
    · apply List.countP_congr
      intro e _
      cases hc : e.cold_start <;> simp [hc, JVal.truthy]

/-- C2 witness: the amended classification evaluated on one record with an
explicit false cold_start next to one missing it (warm 1, cold 1). -/
theorem c2_warm_cold_witness :
    (⟨2, 0, 0, 0, 0, 0, 0, 0, 0, 0, 0, 0, 0, 1, 1⟩ : Stats).warm =
      ([ { cold_start := some (JVal.bool false) }, {} ] :
        List Execution).countP
        (fun e => e.cold_start.elim false (fun v => !v.truthy)) ∧
    (⟨2, 0, 0, 0, 0, 0, 0, 0, 0, 0, 0, 0, 0, 1, 1⟩ : Stats).cold =
      ([ { cold_start := some (JVal.bool false) }, {} ] :
        List Execution).countP (fun e => e.cold_start.elim true JVal.truthy) :=
  c2_warm_cold_classification _ _ (by
    simp [calculate_function_stats, numsOf, init_times, exec_times, total_times,
      successfulCount, listAvg, JVal.truthy, List.countP_cons])

/-- C3: whenever calculate_function_stats returns a result, each timing
field's avg/min/max are the statistics of exactly the sub-sequence of
numeric values carried by that field (a record lacking the field
contributes to none of them); the empty sub-sequence yields 0 for all
three, and a singleton sub-sequence with value v yields v for all three. -/
theorem c3_timing_field_stats (l : List Execution) (s : Stats)
    (h : calculate_function_stats l = Except.ok s) :
    (s.avg_initialization_time =
        listAvg (carriedNums (fun e => e.initialization_time_ms) l) ∧
      s.min_initialization_time =
        listMin (carriedNums (fun e => e.initialization_time_ms) l) ∧
      s.max_initialization_time =
        listMax (carriedNums (fun e => e.initialization_time_ms) l)) ∧
    (s.avg_execution_time =
        listAvg (carriedNums (fun e => e.execution_time_ms) l) ∧
      s.min_execution_time =
        listMin (carriedNums (fun e => e.execution_time_ms) l) ∧
      s.max_execution_time =
        listMax (carriedNums (fun e => e.execution_time_ms) l)) ∧
    (s.avg_total_time = listAvg (carriedNums (fun e => e.total_time_ms) l) ∧
      s.min_total_time = listMin (carriedNums (fun e => e.total_time_ms) l) ∧
      s.max_total_time = listMax (carriedNums (fun e => e.total_time_ms) l)) ∧
    (listAvg [] = 0 ∧ listMin [] = 0 ∧ listMax [] = 0) ∧
    ∀ v : ℚ, listAvg [v] = v ∧ listMin [v] = v ∧ listMax [v] = v := by
  have hsingle : ∀ v : ℚ, listAvg [v] = v ∧ listMin [v] = v ∧ listMax [v] = v := by
    intro v
    refine ⟨?_, rfl, rfl⟩
    simp [listAvg]
  rcases eq_or_ne l [] with rfl | hl
  · rw [calc_nil_inv s h]
    exact ⟨by simp [defaultStats, carriedNums, listAvg, listMin, listMax],
      by simp [defaultStats, carriedNums, listAvg, listMin, listMax],
      by simp [defaultStats, carriedNums, listAvg, listMin, listMax],
      ⟨rfl, rfl, rfl⟩, hsingle⟩
  · obtain ⟨is, es, ts, hi, he, ht, rfl⟩ := calc_ok_inv l s hl h
    have hi2 := numsOf_ok _ _ hi
    have he2 := numsOf_ok _ _ he
    have ht2 := numsOf_ok _ _ ht
    simp only [init_times, exec_times, total_times, List.filterMap_filterMap]
      at hi2 he2 ht2
    have hci : carriedNums (fun e => e.initialization_time_ms) l = is := by
      rw [hi2]; rfl
    have hce : carriedNums (fun e => e.execution_time_ms) l = es := by
      rw [he2]; rfl
    have hct : carriedNums (fun e => e.total_time_ms) l = ts := by
      rw [ht2]; rfl
    refine ⟨⟨?_, ?_, ?_⟩, ⟨?_, ?_, ?_⟩, ⟨?_, ?_, ?_⟩, ⟨rfl, rfl, rfl⟩, hsingle⟩ <;>
      simp only [hci, hce, hct, listMin_if_empty, listMax_if_empty]

/-- C3 witness: the timing statistics evaluated on a single record carrying
only an execution time of 7 (avg, min and max all 7). -/
theorem c3_timing_witness :
    timedStats.avg_execution_time =
      listAvg (carriedNums (fun e => e.execution_time_ms) timedRecords) ∧
    timedStats.min_execution_time =
      listMin (carriedNums (fun e => e.execution_time_ms) timedRecords) ∧
    timedStats.max_execution_time =
      listMax (carriedNums (fun e => e.execution_time_ms) timedRecords) :=
  (c3_timing_field_stats timedRecords timedStats timed_ok).2.1

/-- C4 counterexample: the claim says the function never fails even when a
timing field holds a non-numeric value, but on a record whose
execution_time_ms is the string "boom" Python's sum raises TypeError, so
the function raises instead of returning a result. -/
theorem c4_nonnumeric_timing_raises :
    calculate_function_stats
      [ { execution_time_ms := some (JVal.str "boom") } ] =
    Except.error PyError.typeError := by
  simp [calculate_function_stats, numsOf, init_times, exec_times, total_times,
    JVal.toNum?]

/-- C4 (amended): calculate_function_stats returns a result for every input
whose present timing fields all hold numeric (or boolean) values; missing
fields and malformed success/runtime/cold_start fields never cause a
failure, but a timing field present with a non-numeric value raises. -/
theorem c4_total_unless_nonnumeric_timing (l : List Execution)
    (h : ∀ e ∈ l, numericField e.initialization_time_ms ∧
      numericField e.execution_time_ms ∧ numericField e.total_time_ms) :
    ∃ s, calculate_function_stats l = Except.ok s := by
  rcases eq_or_ne l [] with rfl | hl
  · exact ⟨defaultStats, rfl⟩
  · have hnum : ∀ (f : Execution → Option JVal), (∀ e ∈ l, numericField (f e)) →
        ∀ v ∈ l.filterMap f, v.toNum?.isSome := by
      intro f hf v hv
      obtain ⟨e, he, hfe⟩ := List.mem_filterMap.mp hv
      have hne := hf e he
      rw [hfe] at hne
      simpa [numericField] using hne
    obtain ⟨is, hi⟩ :=
      numsOf_exists (init_times l) (hnum _ fun e he => (h e he).1)
    obtain ⟨es, he2⟩ :=
      numsOf_exists (exec_times l) (hnum _ fun e he => (h e he).2.1)
    obtain ⟨ts, ht⟩ :=
      numsOf_exists (total_times l) (hnum _ fun e he => (h e he).2.2)
    cases hres : calculate_function_stats l with
    | ok s => exact ⟨s, rfl⟩
    | error e =>
      exfalso
      unfold calculate_function_stats at hres
      rw [if_neg (by simpa using hl), hi, he2, ht] at hres
      simp at hres

/-- C4 witness: totality applied to a record with a numeric execution time
next to a record with no fields at all. -/
theorem c4_totality_witness :
    ∃ s, calculate_function_stats
      [ { success := some (JVal.bool true),
          execution_time_ms := some (JVal.num 5) }, {} ] = Except.ok s :=
  c4_total_unless_nonnumeric_timing _ (by decide)

/-- C5: whenever calculate_function_stats returns a result, the docker
(container) and gvisor (sandboxed) tallies sum to at most totalExecutions,
with equality when every record's runtime is one of the two recognized
names, and the warm and cold tallies sum to exactly totalExecutions. -/
theorem c5_distribution_invariants (l : List Execution) (s : Stats)
    (h : calculate_function_stats l = Except.ok s) :
    s.runtime_docker + s.runtime_gvisor ≤ s.total_executions ∧
    ((∀ e ∈ l, e.runtime = some (JVal.str "docker") ∨
        e.runtime = some (JVal.str "gvisor")) →
      s.runtime_docker + s.runtime_gvisor = s.total_executions) ∧
    s.warm + s.cold = s.total_executions := by
  rcases eq_or_ne l [] with rfl | hl
  · rw [calc_nil_inv s h]
    simp [defaultStats]
  · obtain ⟨is, es, ts, hi, he, ht, rfl⟩ := calc_ok_inv l s hl h
    have hdisj : ∀ x ∈ l, ¬((x.runtime == some (JVal.str "docker")) = true ∧
        (x.runtime == some (JVal.str "gvisor")) = true) := by
      intro x _ hc
      obtain ⟨h1, h2⟩ := hc
      rw [beq_iff_eq] at h1 h2
      rw [h1] at h2
      simp at h2
    have hadd := countP_disjoint_add
      (fun e => e.runtime == some (JVal.str "docker"))
      (fun e => e.runtime == some (JVal.str "gvisor")) l hdisj
    refine ⟨?_, ?_, ?_⟩
    · show l.countP _ + l.countP _ ≤ l.length
      rw [hadd]
      exact List.countP_le_length _
    · intro hrec
      show l.countP _ + l.countP _ = l.length
      rw [hadd]
      rw [List.countP_eq_length]
      intro e he
      rcases hrec e he with h1 | h1 <;> simp [h1]
    · show l.countP _ + l.countP _ = l.length
      rw [Nat.add_comm]
      exact countP_not_add _ l

/-- C5 witness: the invariants evaluated on the two-record benchmark
scenario, where every record has a recognized runtime. -/
theorem c5_invariants_witness :
    benchStats.runtime_docker + benchStats.runtime_gvisor ≤
      benchStats.total_executions ∧
    ((∀ e ∈ benchRecords, e.runtime = some (JVal.str "docker") ∨
        e.runtime = some (JVal.str "gvisor")) →
      benchStats.runtime_docker + benchStats.runtime_gvisor =
        benchStats.total_executions) ∧
    benchStats.warm + benchStats.cold = benchStats.total_executions :=
  c5_distribution_invariants benchRecords benchStats bench_ok

/-- C6: when the docker (container) baseline average of a metric is
nonzero, its percentage delta equals 100 * (gvisorAvg - dockerAvg) /
dockerAvg, for each of the three metrics independently; in particular a
container average of 100 gives delta 50 against a sandboxed average of 150
and delta -20 against a sandboxed average of 80 (positive means the
sandboxed runtime is slower). -/
theorem c6_delta_formula_and_sign (d g : RuntimeStats) :
    (d.avg_init_time_ms ≠ 0 →
      init_diff d g =
        100 * (g.avg_init_time_ms - d.avg_init_time_ms) / d.avg_init_time_ms) ∧
    (d.avg_exec_time_ms ≠ 0 →
      exec_diff d g =
        100 * (g.avg_exec_time_ms - d.avg_exec_time_ms) / d.avg_exec_time_ms) ∧
    (d.avg_total_time_ms ≠ 0 →
      total_diff d g =
        100 * (g.avg_total_time_ms - d.avg_total_time_ms) /
          d.avg_total_time_ms) ∧
    init_diff ⟨100, 100, 100⟩ ⟨150, 80, 150⟩ = 50 ∧
    exec_diff ⟨100, 100, 100⟩ ⟨150, 80, 150⟩ = -20 := by
  refine ⟨fun hd => ?_, fun hd => ?_, fun hd => ?_, ?_, ?_⟩
  · unfold init_diff; rw [if_pos hd]; ring
  · unfold exec_diff; rw [if_pos hd]; ring
  · unfold total_diff; rw [if_pos hd]; ring
  · norm_num [init_diff]
  · norm_num [exec_diff]

/-- C6 witness: the delta formula evaluated at a docker baseline of 100
with gvisor averages 150 (init) and 80 (exec). -/
theorem c6_delta_witness :
    init_diff ⟨100, 100, 100⟩ ⟨150, 80, 120⟩ = 100 * (150 - 100) / 100 ∧
    exec_diff ⟨100, 100, 100⟩ ⟨150, 80, 120⟩ = 100 * (80 - 100) / 100 :=
  ⟨(c6_delta_formula_and_sign ⟨100, 100, 100⟩ ⟨150, 80, 120⟩).1 (by norm_num),
   (c6_delta_formula_and_sign ⟨100, 100, 100⟩ ⟨150, 80, 120⟩).2.1 (by norm_num)⟩

/-- C7: when the docker (container) baseline average of a metric is exactly
0, that metric's percentage delta is 0 and no division fault occurs (the
functions are total); the guard is applied to each metric independently of
the other two baselines. -/
theorem c7_zero_baseline_guard (d g : RuntimeStats) :
    (d.avg_init_time_ms = 0 → init_diff d g = 0) ∧
    (d.avg_exec_time_ms = 0 → exec_diff d g = 0) ∧
    (d.avg_total_time_ms = 0 → total_diff d g = 0) := by
  refine ⟨fun hd => ?_, fun hd => ?_, fun hd => ?_⟩ <;>
    simp [init_diff, exec_diff, total_diff, hd]

/-- C7 witness: zero init and total baselines give delta 0 even though the
exec baseline of the same comparison is nonzero. -/
theorem c7_zero_baseline_witness :
    init_diff ⟨0, 5, 0⟩ ⟨7, 8, 9⟩ = 0 ∧ total_diff ⟨0, 5, 0⟩ ⟨7, 8, 9⟩ = 0 :=
  ⟨(c7_zero_baseline_guard ⟨0, 5, 0⟩ ⟨7, 8, 9⟩).1 rfl,
   (c7_zero_baseline_guard ⟨0, 5, 0⟩ ⟨7, 8, 9⟩).2.2 rfl⟩

/-- C8: for every nonempty input on which calculate_function_stats returns
a result, successRate equals exactly 100 * successfulCount /
totalExecutions (no rounding is performed) and lies in the interval
from 0 to 100. -/
theorem c8_success_rate_formula (l : List Execution) (s : Stats)
    (hl : l ≠ []) (h : calculate_function_stats l = Except.ok s) :
    s.success_rate = 100 * (successfulCount l : ℚ) / (s.total_executions : ℚ) ∧
    0 ≤ s.success_rate ∧ s.success_rate ≤ 100 := by
  obtain ⟨is, es, ts, hi, he, ht, rfl⟩ := calc_ok_inv l s hl h
  have hn : 0 < l.length := List.length_pos.mpr hl
  have hnq : (0 : ℚ) < (l.length : ℚ) := by exact_mod_cast hn
  have hc : (successfulCount l : ℚ) ≤ (l.length : ℚ) := by
    exact_mod_cast List.countP_le_length
      (p := fun e => (e.success.getD (JVal.bool false)).truthy) (l := l)
  refine ⟨by ring, ?_, ?_⟩
  · show 0 ≤ ((successfulCount l : ℚ) / (l.length : ℚ)) * 100
    positivity
  · show ((successfulCount l : ℚ) / (l.length : ℚ)) * 100 ≤ 100
    calc ((successfulCount l : ℚ) / (l.length : ℚ)) * 100
        ≤ 1 * 100 :=
          mul_le_mul_of_nonneg_right ((div_le_one hnq).mpr hc) (by norm_num)
      _ = 100 := by norm_num

/-- C8 witness: the success-rate formula and bounds evaluated on the
two-record benchmark scenario (one success out of two, rate 50). -/
theorem c8_success_rate_witness :
    benchStats.success_rate =
      100 * (successfulCount benchRecords : ℚ) /
        (benchStats.total_executions : ℚ) ∧
    0 ≤ benchStats.success_rate ∧ benchStats.success_rate ≤ 100 :=
  c8_success_rate_formula benchRecords benchStats (by decide) bench_ok

/-- C9: on the empty record list calculate_function_stats returns, without
error, exactly the all-zero default dict: zero executions, zero rate, all
nine timing statistics 0, docker and gvisor counts 0, warm and cold
counts 0. -/
theorem c9_empty_returns_default :
    calculate_function_stats [] =
      Except.ok
        { total_executions := 0, success_rate := 0,
          avg_initialization_time := 0, min_initialization_time := 0,
          max_initialization_time := 0,
          avg_execution_time := 0, min_execution_time := 0,
          max_execution_time := 0,
          avg_total_time := 0, min_total_time := 0, max_total_time := 0,
          runtime_docker := 0, runtime_gvisor := 0, warm := 0,
          cold := 0 } := rfl

/-- C10: a record with no success field counts as unsuccessful (the flag
defaults to false when absent), so whenever calculate_function_stats
returns a result its successRate is 100 times the count of records whose
success field is present and truthy, divided by the number of records. -/
theorem c10_missing_success_flag (l : List Execution) (s : Stats)
    (h : calculate_function_stats l = Except.ok s) :
    s.success_rate =
      100 * (l.countP (fun e => e.success.elim false JVal.truthy) : ℚ) /
        (l.length : ℚ) := by
  rcases eq_or_ne l [] with rfl | hl
  · rw [calc_nil_inv s h]
    simp [defaultStats]
  · obtain ⟨is, es, ts, hi, he, ht, rfl⟩ := calc_ok_inv l s hl h
    have hcnt : successfulCount l =
        l.countP (fun e => e.success.elim false JVal.truthy) := by
      unfold successfulCount
      apply List.countP_congr
      intro e _
      cases hc : e.success <;> simp [hc, JVal.truthy]
    show ((successfulCount l : ℚ) / (l.length : ℚ)) * 100 = _
    rw [hcnt]
    ring

/-- C10 witness: the present-and-truthy success count evaluated on one
record with success true next to one with no success field (rate 50). -/
theorem c10_missing_success_witness :
    succStats.success_rate =
      100 * (succRecords.countP (fun e => e.success.elim false JVal.truthy) : ℚ) /
        (succRecords.length : ℚ) :=
  c10_missing_success_flag succRecords succStats succ_ok

end FrontendApp
